import Mathlib

/-!
Verification development for the Safe-DS Library repository: tabular data
containers, preprocessing transformers and classical ML model wrappers.
Pure functions model the Python classes; machine floats are modelled by
exact rationals; fallible methods return an Except value whose error
constructor names the Python exception class that the method raises.
-/

namespace SafeDS

/-- Cell values of a column: numeric values (Python int/float, modelled by
rationals), strings, and missing values (None/NaN). -/
inductive Value where
  | num (q : ℚ)
  | str (s : String)
  | missing
deriving DecidableEq

/-- Column: a name plus the ordered sequence of its values. -/
structure Column where
  name : String
  values : List Value
deriving DecidableEq

/-- Table: an ordered collection of named columns. -/
structure Table where
  columns : List Column
deriving DecidableEq

def Table.column_names (t : Table) : List String :=
  t.columns.map Column.name

def Table.number_of_rows (t : Table) : ℕ :=
  match t.columns with
  | [] => 0
  | c :: _ => c.values.length

def Table.getColumn? (t : Table) (n : String) : Option Column :=
  t.columns.find? (fun c => c.name = n)

def Table.keep_only_columns (t : Table) (ns : List String) : Table :=
  ⟨ns.filterMap t.getColumn?⟩

/-- Tagged table: a table with one column designated as target and a list
of columns designated as features. -/
structure TaggedTable where
  table : Table
  target_name : String
  feature_names : List String
deriving DecidableEq

def TaggedTable.number_of_rows (ts : TaggedTable) : ℕ :=
  ts.table.number_of_rows

def TaggedTable.features (ts : TaggedTable) : Table :=
  ts.table.keep_only_columns ts.feature_names

/-- Error taxonomy of the library; constructors are named after the Python
exception classes raised by the code. -/
inductive MLError where
  | outOfBoundsError (param : String)
  | valueError (param : String)
  | typeError (msg : String)
  | datasetMissesDataError
  | modelNotFittedError
  | datasetContainsTargetError
  | datasetMissesFeaturesError
  | nonNumericColumnError
  | missingValuesColumnError
  | transformerNotFittedError
  | unknownColumnNameError
deriving DecidableEq

/-- A value counts as numeric for the non-numeric check when it is a number
or a missing value (a missing value becomes NaN in a float column); only
string values make a column non-numerical. -/
def Value.isNumericValue : Value → Bool
  | .str _ => false
  | _ => true

def Value.isMissingValue : Value → Bool
  | .missing => true
  | _ => false

def Column.isNumeric (c : Column) : Bool :=
  c.values.all Value.isNumericValue

def Column.hasMissingValues (c : Column) : Bool :=
  c.values.any Value.isMissingValue

/-- The external (sklearn) estimator handle after a successful fit: its
construction-time configuration plus the training snapshot it was fitted on.
The numeric optimisation itself is delegated to the external library and is
not part of this system. -/
structure SkFitted (Cfg : Type) where
  config : Cfg
  train : TaggedTable
deriving DecidableEq

/-- Modelled from the spec: the validation performed by
safeds.ml.classical._util_sklearn.fit, whose source file is not under src/.
Per the spec it validates the tagged dataset's feature/target columns for
numeric-ness, missing values, and row count, in that order, raising
NonNumericColumnError, MissingValuesColumnError or DatasetMissesDataError. -/
def fitCheckColumns (training_set : TaggedTable) : List Column :=
  training_set.features.columns
    ++ (training_set.table.getColumn? training_set.target_name).toList

def utilSklearnFitCheck (training_set : TaggedTable) : Except MLError Unit :=
  if ¬ (fitCheckColumns training_set).all Column.isNumeric then
    .error .nonNumericColumnError
  else if (fitCheckColumns training_set).any Column.hasMissingValues then
    .error .missingValuesColumnError
  else if training_set.number_of_rows = 0 then .error .datasetMissesDataError
  else .ok ()

/-- Modelled from the spec: safeds.ml.classical._util_sklearn.fit (not under
src/). It validates the training set and then delegates the numeric
optimisation to the external estimator, which becomes fitted. -/
def utilSklearnFit {Cfg : Type} (config : Cfg) (training_set : TaggedTable) :
    Except MLError (SkFitted Cfg) :=
  match utilSklearnFitCheck training_set with
  | .error e => .error e
  | .ok _ => .ok ⟨config, training_set⟩

/-- Modelled from the spec: safeds.ml.classical._util_sklearn.predict (not
under src/). Per the spec it fails if the wrapper is unfitted; then if the
dataset already contains a column named like the target; then if the dataset
is missing any required feature column; then validates numeric-ness,
missing values and row count of the feature columns; finally it delegates to
the fitted estimator (modelled by the parameter predictWith) and returns the
feature columns plus a new predicted target column. -/
def utilSklearnPredict {Cfg : Type} (predictWith : SkFitted Cfg → Table → List Value)
    (wrapped : Option (SkFitted Cfg)) (dataset : Table)
    (feature_names : Option (List String)) (target_name : Option String) :
    Except MLError TaggedTable :=
  match wrapped, feature_names, target_name with
  | some w, some feats, some tgt =>
    if dataset.column_names.contains tgt then .error .datasetContainsTargetError
    else if ¬ feats.all (fun f => dataset.column_names.contains f) then
      .error .datasetMissesFeaturesError
    else if ¬ (dataset.keep_only_columns feats).columns.all Column.isNumeric then
      .error .nonNumericColumnError
    else if (dataset.keep_only_columns feats).columns.any Column.hasMissingValues then
      .error .missingValuesColumnError
    else if dataset.number_of_rows = 0 then .error .datasetMissesDataError
    else
      .ok ⟨⟨(dataset.keep_only_columns feats).columns
            ++ [⟨tgt, predictWith w (dataset.keep_only_columns feats)⟩]⟩, tgt, feats⟩
  | _, _, _ => .error .modelNotFittedError

/-- Configuration of the wrapped sklearn KNeighborsRegressor. -/
structure SkKNeighborsRegressorConfig where
  n_neighbors : ℤ
deriving DecidableEq

/-- KNearestNeighborsRegressor from
src/src/safeds/ml/classical/regression/_k_nearest_neighbors.py: the
hyperparameter number_of_neighbors plus the fitted state (wrapped estimator
handle, feature names, target name), all None until fit. -/
structure KNearestNeighborsRegressor where
  number_of_neighbors : ℤ
  wrapped_regressor : Option (SkFitted SkKNeighborsRegressorConfig)
  feature_names : Option (List String)
  target_name : Option String
deriving DecidableEq

namespace KNearestNeighborsRegressor

/-- Constructor: validates number_of_neighbors >= 1 (OutOfBoundsError
otherwise), stores the hyperparameter and the unfitted sentinel state. -/
def create (number_of_neighbors : ℤ) : Except MLError KNearestNeighborsRegressor :=
  if number_of_neighbors < 1 then .error (.outOfBoundsError "number_of_neighbors")
  else .ok ⟨number_of_neighbors, none, none, none⟩

def get_sklearn_regressor (self : KNearestNeighborsRegressor) :
    SkKNeighborsRegressorConfig :=
  ⟨self.number_of_neighbors⟩

/-- fit, from the source: raises DatasetMissesDataError on zero rows, then
ValueError naming number_of_neighbors when the neighbor count exceeds the
sample size, then delegates to the sklearn fit and returns a new fitted
wrapper; the receiver is never written to. -/
def fit (self : KNearestNeighborsRegressor) (training_set : TaggedTable) :
    Except MLError KNearestNeighborsRegressor :=
  if training_set.number_of_rows = 0 then .error .datasetMissesDataError
  else if (training_set.number_of_rows : ℤ) < self.number_of_neighbors then
    .error (.valueError "number_of_neighbors")
  else
    match utilSklearnFit self.get_sklearn_regressor training_set with
    | .error e => .error e
    | .ok w =>
      .ok ⟨self.number_of_neighbors, some w,
           some training_set.features.column_names,
           some training_set.target_name⟩

def predict (predictWith : SkFitted SkKNeighborsRegressorConfig → Table → List Value)
    (self : KNearestNeighborsRegressor) (dataset : Table) :
    Except MLError TaggedTable :=
  utilSklearnPredict predictWith self.wrapped_regressor dataset
    self.feature_names self.target_name

def is_fitted (self : KNearestNeighborsRegressor) : Bool :=
  self.wrapped_regressor.isSome

end KNearestNeighborsRegressor

/-- Kernels of the support vector machine, from
src/src/safeds/ml/classical/regression/_support_vector_machine.py. -/
inductive SupportVectorMachineKernel where
  | linear
  | polynomial (degree : ℤ)
  | sigmoid
  | radialBasisFunction
deriving DecidableEq

/-- Configuration of the wrapped sklearn SVR: the source constructs it as
sk_SVR(C=self._c), so only C is set; the kernel hyperparameter is not
passed on. -/
structure SkSVRConfig where
  C : ℚ
deriving DecidableEq

/-- SupportVectorMachineRegressor from
src/src/safeds/ml/classical/regression/_support_vector_machine.py. -/
structure SupportVectorMachineRegressor where
  c : ℚ
  kernel : Option SupportVectorMachineKernel
  wrapped_regressor : Option (SkFitted SkSVRConfig)
  feature_names : Option (List String)
  target_name : Option String
deriving DecidableEq

namespace SupportVectorMachineRegressor

/-- Constructor: validates c > 0 (OutOfBoundsError otherwise) and stores the
hyperparameters c and kernel plus the unfitted sentinel state. -/
def create (c : ℚ) (kernel : Option SupportVectorMachineKernel) :
    Except MLError SupportVectorMachineRegressor :=
  if c ≤ 0 then .error (.outOfBoundsError "c")
  else .ok ⟨c, kernel, none, none, none⟩

/-- From the source: returns sk_SVR(C=self._c); the kernel field is not
consulted. -/
def get_sklearn_regressor (self : SupportVectorMachineRegressor) : SkSVRConfig :=
  ⟨self.c⟩

/-- From the source: maps the kernel object to its sklearn name, raising
TypeError for None or an unknown kernel. Not called by fit or predict. -/
def get_kernel_name (self : SupportVectorMachineRegressor) : Except MLError String :=
  match self.kernel with
  | some .linear => .ok "linear"
  | some (.polynomial _) => .ok "poly"
  | some .sigmoid => .ok "sigmoid"
  | some .radialBasisFunction => .ok "rbf"
  | none => .error (.typeError "Invalid kernel type.")

def fit (self : SupportVectorMachineRegressor) (training_set : TaggedTable) :
    Except MLError SupportVectorMachineRegressor :=
  match utilSklearnFit self.get_sklearn_regressor training_set with
  | .error e => .error e
  | .ok w =>
    .ok ⟨self.c, self.kernel, some w,
         some training_set.features.column_names,
         some training_set.target_name⟩

def predict (predictWith : SkFitted SkSVRConfig → Table → List Value)
    (self : SupportVectorMachineRegressor) (dataset : Table) :
    Except MLError TaggedTable :=
  utilSklearnPredict predictWith self.wrapped_regressor dataset
    self.feature_names self.target_name

def is_fitted (self : SupportVectorMachineRegressor) : Bool :=
  self.wrapped_regressor.isSome

end SupportVectorMachineRegressor

/-- Configuration of the wrapped sklearn GradientBoostingRegressor. -/
structure SkGradientBoostingConfig where
  learning_rate : ℚ
deriving DecidableEq

/-- GradientBoosting from
src/src/safeds/ml/classical/regression/_gradient_boosting.py. -/
structure GradientBoosting where
  learning_rate : ℚ
  wrapped_regressor : Option (SkFitted SkGradientBoostingConfig)
  feature_names : Option (List String)
  target_name : Option String
deriving DecidableEq

namespace GradientBoosting

/-- Constructor: validates learning_rate > 0 (ValueError otherwise). -/
def create (learning_rate : ℚ) : Except MLError GradientBoosting :=
  if learning_rate ≤ 0 then .error (.valueError "learning_rate")
  else .ok ⟨learning_rate, none, none, none⟩

def fit (self : GradientBoosting) (training_set : TaggedTable) :
    Except MLError GradientBoosting :=
  match utilSklearnFit (⟨self.learning_rate⟩ : SkGradientBoostingConfig) training_set with
  | .error e => .error e
  | .ok w =>
    .ok ⟨self.learning_rate, some w,
         some training_set.features.column_names,
         some training_set.target_name⟩

def predict (predictWith : SkFitted SkGradientBoostingConfig → Table → List Value)
    (self : GradientBoosting) (dataset : Table) : Except MLError TaggedTable :=
  utilSklearnPredict predictWith self.wrapped_regressor dataset
    self.feature_names self.target_name

def is_fitted (self : GradientBoosting) : Bool :=
  self.wrapped_regressor.isSome

end GradientBoosting

/-- Configuration of the wrapped sklearn RandomForestRegressor. -/
structure SkRandomForestConfig where
  number_of_trees : ℤ
deriving DecidableEq

/-- RandomForestRegressor from
src/src/safeds/ml/classical/regression/_random_forest.py. -/
structure RandomForestRegressor where
  number_of_trees : ℤ
  wrapped_regressor : Option (SkFitted SkRandomForestConfig)
  feature_names : Option (List String)
  target_name : Option String
deriving DecidableEq

namespace RandomForestRegressor

/-- Constructor: validates number_of_trees >= 1 (OutOfBoundsError otherwise). -/
def create (number_of_trees : ℤ) : Except MLError RandomForestRegressor :=
  if number_of_trees < 1 then .error (.outOfBoundsError "number_of_trees")
  else .ok ⟨number_of_trees, none, none, none⟩

def get_sklearn_regressor (self : RandomForestRegressor) : SkRandomForestConfig :=
  ⟨self.number_of_trees⟩

def fit (self : RandomForestRegressor) (training_set : TaggedTable) :
    Except MLError RandomForestRegressor :=
  match utilSklearnFit self.get_sklearn_regressor training_set with
  | .error e => .error e
  | .ok w =>
    .ok ⟨self.number_of_trees, some w,
         some training_set.features.column_names,
         some training_set.target_name⟩

def predict (predictWith : SkFitted SkRandomForestConfig → Table → List Value)
    (self : RandomForestRegressor) (dataset : Table) : Except MLError TaggedTable :=
  utilSklearnPredict predictWith self.wrapped_regressor dataset
    self.feature_names self.target_name

def is_fitted (self : RandomForestRegressor) : Bool :=
  self.wrapped_regressor.isSome

end RandomForestRegressor

/-- Configuration of the wrapped sklearn LogisticRegression: the source
passes no hyperparameters (only n_jobs, which does not affect results). -/
structure SkLogisticRegressionConfig where
deriving DecidableEq

/-- LogisticRegressionClassifier from
src/src/safeds/ml/classical/classification/_logistic_regression.py. -/
structure LogisticRegressionClassifier where
  wrapped_classifier : Option (SkFitted SkLogisticRegressionConfig)
  feature_names : Option (List String)
  target_name : Option String
deriving DecidableEq

namespace LogisticRegressionClassifier

def create : LogisticRegressionClassifier :=
  ⟨none, none, none⟩

def fit (self : LogisticRegressionClassifier) (training_set : TaggedTable) :
    Except MLError LogisticRegressionClassifier :=
  match utilSklearnFit (⟨⟩ : SkLogisticRegressionConfig) training_set with
  | .error e => .error e
  | .ok w =>
    .ok ⟨some w,
         some training_set.features.column_names,
         some training_set.target_name⟩

def predict (predictWith : SkFitted SkLogisticRegressionConfig → Table → List Value)
    (self : LogisticRegressionClassifier) (dataset : Table) :
    Except MLError TaggedTable :=
  utilSklearnPredict predictWith self.wrapped_classifier dataset
    self.feature_names self.target_name

def is_fitted (self : LogisticRegressionClassifier) : Bool :=
  self.wrapped_classifier.isSome

end LogisticRegressionClassifier

/-- SupervisedDataset of the legacy safe_ds runtime: a table with a
designated target column. -/
structure SupervisedDataset where
  table : Table
  target_name : String
deriving DecidableEq

/-- The sklearn DecisionTreeRegressor held by the legacy wrapper: mutable,
fitted in place by safe_ds._util._util_sklearn.fit. -/
structure SkDecisionTreeRegressor where
  fittedOn : Option SupervisedDataset
deriving DecidableEq

/-- Legacy DecisionTree from
src/Runtime/safe-ds/safe_ds/regression/_decision_tree.py: it holds a single
sklearn estimator created in the constructor, has no feature-name or
target-name state and no is_fitted method. -/
structure DecisionTree where
  regression : SkDecisionTreeRegressor
deriving DecidableEq

namespace DecisionTree

def create : DecisionTree :=
  ⟨⟨none⟩⟩

/-- Legacy fit: the source calls safe_ds._util._util_sklearn.fit on
self._regression, which fits the held sklearn estimator IN PLACE, and the
method returns None. Modelled as a state transformer returning the updated
receiver together with the Python return value (Unit stands for None). -/
def fit (self : DecisionTree) (supervised_dataset : SupervisedDataset) :
    DecisionTree × Unit :=
  (⟨⟨some supervised_dataset⟩⟩, ())

end DecisionTree

/-- Extracts the rational values of a column's cells; none if any cell is
not a plain number. -/
def numericValues : List Value → Option (List ℚ)
  | [] => some []
  | .num q :: vs =>
    match numericValues vs with
    | some qs => some (q :: qs)
    | none => none
  | _ :: _ => none

/-- Modelled from the spec: the fitting pass of the RangeScaler (the
transformer sources are not under src/, only their tests). For every column
to be fitted it records the column name with the data minimum and data
maximum of its values; none when a column is absent, empty or contains a
non-numeric value. -/
def rangeScalerParams (table : Table) : List String → Option (List (String × ℚ × ℚ))
  | [] => some []
  | n :: ns =>
    match table.getColumn? n with
    | none => none
    | some c =>
      match numericValues c.values with
      | none => none
      | some [] => none
      | some (q :: qs) =>
        match rangeScalerParams table ns with
        | none => none
        | some ps => some ((n, qs.foldl min q, qs.foldl max q) :: ps)

/-- Modelled from the spec: the forward min-max mapping of the RangeScaler,
sending the fitted data range onto the configured target range; non-numeric
cells pass through unchanged. -/
def scaleValue (minimum maximum dmin dmax : ℚ) : Value → Value
  | .num q => .num ((q - dmin) / (dmax - dmin) * (maximum - minimum) + minimum)
  | v => v

/-- Modelled from the spec: the exact algebraic inverse of scaleValue. -/
def unscaleValue (minimum maximum dmin dmax : ℚ) : Value → Value
  | .num q => .num ((q - minimum) / (maximum - minimum) * (dmax - dmin) + dmin)
  | v => v

/-- Modelled from the spec: RangeScaler (its source file is not under src/;
behaviour taken from the spec and the tests under
src/tests/safeds/data/tabular/transformation/test_range_scaler.py).
Hyperparameters minimum and maximum of the target range; fitted state is
the per-column data ranges plus the fitted column names, None until fit. -/
structure RangeScaler where
  minimum : ℚ
  maximum : ℚ
  wrapped_transformer : Option (List (String × ℚ × ℚ))
  column_names : Option (List String)
deriving DecidableEq

namespace RangeScaler

/-- Modelled from the spec: the constructor raises ValueError unless the
maximum is higher than the minimum (test TestInit). -/
def create (minimum maximum : ℚ) : Except MLError RangeScaler :=
  if maximum ≤ minimum then .error (.valueError "maximum")
  else .ok ⟨minimum, maximum, none, none⟩

/-- Modelled from the spec: fit validates that the named columns exist
(UnknownColumnNameError otherwise; all columns when none are named),
records the fitted column set and their data ranges, and returns a new
fitted transformer without mutating self or the table. -/
def fit (self : RangeScaler) (table : Table) (cns : Option (List String)) :
    Except MLError RangeScaler :=
  if ¬ (cns.getD table.column_names).all (fun n => table.column_names.contains n) then
    .error .unknownColumnNameError
  else
    match rangeScalerParams table (cns.getD table.column_names) with
    | none => .error .nonNumericColumnError
    | some ps =>
      .ok ⟨self.minimum, self.maximum, some ps, some (cns.getD table.column_names)⟩

/-- Modelled from the spec: transform fails with TransformerNotFittedError
when unfitted, fails with UnknownColumnNameError when the table lacks a
fitted column, and otherwise rescales every fitted column by the recorded
data range, leaving all other columns unchanged. -/
def transform (self : RangeScaler) (table : Table) : Except MLError Table :=
  match self.wrapped_transformer, self.column_names with
  | some ps, some names =>
    if ¬ names.all (fun n => table.column_names.contains n) then
      .error .unknownColumnNameError
    else
      .ok ⟨table.columns.map fun c =>
        match ps.find? (fun p => p.1 = c.name) with
        | some p => ⟨c.name, c.values.map (scaleValue self.minimum self.maximum p.2.1 p.2.2)⟩
        | none => c⟩
  | _, _ => .error .transformerNotFittedError

/-- Modelled from the spec: inverse_transform applies the exact algebraic
inverse of the forward transform to the fitted columns; it fails with
TransformerNotFittedError when unfitted. -/
def inverse_transform (self : RangeScaler) (table : Table) : Except MLError Table :=
  match self.wrapped_transformer, self.column_names with
  | some ps, some names =>
    if ¬ names.all (fun n => table.column_names.contains n) then
      .error .unknownColumnNameError
    else
      .ok ⟨table.columns.map fun c =>
        match ps.find? (fun p => p.1 = c.name) with
        | some p => ⟨c.name, c.values.map (unscaleValue self.minimum self.maximum p.2.1 p.2.2)⟩
        | none => c⟩
  | _, _ => .error .transformerNotFittedError

/-- Modelled from the spec: fit_and_transform is fit followed by transform
on the same table. -/
def fit_and_transform (self : RangeScaler) (table : Table)
    (cns : Option (List String)) : Except MLError Table :=
  match self.fit table cns with
  | .error e => .error e
  | .ok fitted => fitted.transform table

def is_fitted (self : RangeScaler) : Bool :=
  self.wrapped_transformer.isSome

end RangeScaler

/-! Concrete fixtures, mirroring the tables of the repository's tests. -/

/-- A valid tagged training set with two rows, one feature and a target,
after the valid_data fixture of test_regressor.py. -/
def tsValid : TaggedTable :=
  ⟨⟨[⟨"feat1", [.num 2, .num 5]⟩, ⟨"target", [.num 0, .num 1]⟩]⟩, "target", ["feat1"]⟩

/-- A zero-row table that already contains a column named like the target. -/
def tableZeroWithTarget : Table :=
  ⟨[⟨"target", []⟩, ⟨"feat1", []⟩]⟩

/-- A zero-row tagged training set, after the no-rows case of
test_regressor.py. -/
def tsZeroRows : TaggedTable :=
  ⟨⟨[⟨"feat1", []⟩, ⟨"target", []⟩]⟩, "target", ["feat1"]⟩

/-- A trivial stand-in for the delegated numeric prediction of the external
library (the claims under verification never inspect predicted values). -/
def constPredict {Cfg : Type} : SkFitted Cfg → Table → List Value :=
  fun _ t => List.replicate t.number_of_rows (.num 0)

/-- A valid supervised dataset for the legacy safe_ds runtime. -/
def sdsValid : SupervisedDataset :=
  ⟨⟨[⟨"feat1", [.num 2, .num 5]⟩, ⟨"T", [.num 0, .num 1]⟩]⟩, "T"⟩

/-! Reachability predicates: the wrapper states obtainable by construction
followed by any number of successful fits, and the fitted-state invariant
each wrapper class maintains. -/

inductive KNNReachable : KNearestNeighborsRegressor → Prop where
  | of_create (k : ℤ) (m : KNearestNeighborsRegressor)
      (h : KNearestNeighborsRegressor.create k = .ok m) : KNNReachable m
  | of_fit (m r : KNearestNeighborsRegressor) (ts : TaggedTable)
      (hm : KNNReachable m) (h : m.fit ts = .ok r) : KNNReachable r

/-- Fitted-state invariant of the KNN wrapper: either all three fitted-state
fields are the None sentinel and is_fitted is false, or all three are set
and is_fitted is true, the recorded feature names and target name coming
from the training set held by the wrapped estimator, whose configuration
carries exactly the wrapper's hyperparameter. -/
def KNNInvariant (m : KNearestNeighborsRegressor) : Prop :=
  (m.wrapped_regressor = none ∧ m.feature_names = none ∧ m.target_name = none ∧
    m.is_fitted = false) ∨
  (∃ w, m.wrapped_regressor = some w ∧
    w.config = SkKNeighborsRegressorConfig.mk m.number_of_neighbors ∧
    m.feature_names = some w.train.features.column_names ∧
    m.target_name = some w.train.target_name ∧
    m.is_fitted = true)

inductive SVMReachable : SupportVectorMachineRegressor → Prop where
  | of_create (c : ℚ) (k : Option SupportVectorMachineKernel)
      (m : SupportVectorMachineRegressor)
      (h : SupportVectorMachineRegressor.create c k = .ok m) : SVMReachable m
  | of_fit (m r : SupportVectorMachineRegressor) (ts : TaggedTable)
      (hm : SVMReachable m) (h : m.fit ts = .ok r) : SVMReachable r

def SVMInvariant (m : SupportVectorMachineRegressor) : Prop :=
  (m.wrapped_regressor = none ∧ m.feature_names = none ∧ m.target_name = none ∧
    m.is_fitted = false) ∨
  (∃ w, m.wrapped_regressor = some w ∧
    w.config = SkSVRConfig.mk m.c ∧
    m.feature_names = some w.train.features.column_names ∧
    m.target_name = some w.train.target_name ∧
    m.is_fitted = true)

inductive GBReachable : GradientBoosting → Prop where
  | of_create (lr : ℚ) (m : GradientBoosting)
      (h : GradientBoosting.create lr = .ok m) : GBReachable m
  | of_fit (m r : GradientBoosting) (ts : TaggedTable)
      (hm : GBReachable m) (h : m.fit ts = .ok r) : GBReachable r

def GBInvariant (m : GradientBoosting) : Prop :=
  (m.wrapped_regressor = none ∧ m.feature_names = none ∧ m.target_name = none ∧
    m.is_fitted = false) ∨
  (∃ w, m.wrapped_regressor = some w ∧
    w.config = SkGradientBoostingConfig.mk m.learning_rate ∧
    m.feature_names = some w.train.features.column_names ∧
    m.target_name = some w.train.target_name ∧
    m.is_fitted = true)

inductive RFReachable : RandomForestRegressor → Prop where
  | of_create (n : ℤ) (m : RandomForestRegressor)
      (h : RandomForestRegressor.create n = .ok m) : RFReachable m
  | of_fit (m r : RandomForestRegressor) (ts : TaggedTable)
      (hm : RFReachable m) (h : m.fit ts = .ok r) : RFReachable r

def RFInvariant (m : RandomForestRegressor) : Prop :=
  (m.wrapped_regressor = none ∧ m.feature_names = none ∧ m.target_name = none ∧
    m.is_fitted = false) ∨
  (∃ w, m.wrapped_regressor = some w ∧
    w.config = SkRandomForestConfig.mk m.number_of_trees ∧
    m.feature_names = some w.train.features.column_names ∧
    m.target_name = some w.train.target_name ∧
    m.is_fitted = true)

inductive LogRegReachable : LogisticRegressionClassifier → Prop where
  | of_create (m : LogisticRegressionClassifier)
      (h : LogisticRegressionClassifier.create = m) : LogRegReachable m
  | of_fit (m r : LogisticRegressionClassifier) (ts : TaggedTable)
      (hm : LogRegReachable m) (h : m.fit ts = .ok r) : LogRegReachable r

/-- Everything observable about a SupportVectorMachineRegressor on the
fit/predict path: all fields except the kernel hyperparameter. -/
def svmObservable (m : SupportVectorMachineRegressor) :
    ℚ × Option (SkFitted SkSVRConfig) × Option (List String) × Option String :=
  (m.c, m.wrapped_regressor, m.feature_names, m.target_name)

def LogRegInvariant (m : LogisticRegressionClassifier) : Prop :=
  (m.wrapped_classifier = none ∧ m.feature_names = none ∧ m.target_name = none ∧
    m.is_fitted = false) ∨
  (∃ w, m.wrapped_classifier = some w ∧
    m.feature_names = some w.train.features.column_names ∧
    m.target_name = some w.train.target_name ∧
    m.is_fitted = true)

/-- The single-column table holding [0, 5, 5, 10], after the RangeScaler
round-trip tests. -/
def tRound : Table :=
  ⟨[⟨"col1", [.num 0, .num 5, .num 5, .num 10]⟩]⟩

/-- The two-column variant of tRound used to check that unfitted columns
stay unchanged. -/
def tRound2 : Table :=
  ⟨[⟨"col1", [.num 0, .num 5, .num 5, .num 10]⟩,
    ⟨"col2", [.num 0, .num 5, .num 5, .num 10]⟩]⟩

/-- tRound scaled to the default range [0, 1]: [0, 0.5, 0.5, 1]. -/
def tScaled : Table :=
  ⟨[⟨"col1", [.num 0, .num (1/2), .num (1/2), .num 1]⟩]⟩

/-- tRound scaled to the range [-10, 10]: [-10, 0, 0, 10]. -/
def tWide : Table :=
  ⟨[⟨"col1", [.num (-10), .num 0, .num 0, .num 10]⟩]⟩

/-- tRound2 with only col1 scaled to [-10, 10] and col2 untouched. -/
def tWide2 : Table :=
  ⟨[⟨"col1", [.num (-10), .num 0, .num 0, .num 10]⟩,
    ⟨"col2", [.num 0, .num 5, .num 5, .num 10]⟩]⟩

/-- A RangeScaler with the default range [0, 1], unfitted. -/
def rsUnit : RangeScaler :=
  ⟨0, 1, none, none⟩

/-- rsUnit after fitting on tRound: data range (0, 10) recorded for col1. -/
def rsUnitFitted : RangeScaler :=
  ⟨0, 1, some [("col1", 0, 10)], some ["col1"]⟩

/-! Helper lemmas about the shared sklearn delegation layer. -/

theorem utilSklearnFitCheck_cases (ts : TaggedTable) :
    utilSklearnFitCheck ts = .ok () ∨
    utilSklearnFitCheck ts = .error .nonNumericColumnError ∨
    utilSklearnFitCheck ts = .error .missingValuesColumnError ∨
    utilSklearnFitCheck ts = .error .datasetMissesDataError := by
  unfold utilSklearnFitCheck
  split_ifs <;> tauto

theorem utilSklearnPredict_unfitted {Cfg : Type}
    (pf : SkFitted Cfg → Table → List Value) (d : Table)
    (fn : Option (List String)) (tn : Option String) :
    utilSklearnPredict pf none d fn tn = .error .modelNotFittedError := by
  cases fn <;> cases tn <;> rfl

/-! Claim theorems. -/

/-- C5: for every KNearestNeighborsRegressor constructed with
number_of_neighbors k (the constructor succeeding means k is at least 1) and
every tagged training set with n rows, when n is positive the fit raises the
ValueError naming number_of_neighbors if and only if k exceeds n, and when
n is zero the zero-row check precedes the neighbor-count check so
DatasetMissesDataError is raised instead. -/
theorem knn_fit_neighbor_count_iff (k : ℤ) (rs : KNearestNeighborsRegressor)
    (ts : TaggedTable) (hc : KNearestNeighborsRegressor.create k = .ok rs) :
    (0 < ts.number_of_rows →
      (rs.fit ts = .error (.valueError "number_of_neighbors") ↔
        (ts.number_of_rows : ℤ) < k)) ∧
    (ts.number_of_rows = 0 → rs.fit ts = .error .datasetMissesDataError) := by
  unfold KNearestNeighborsRegressor.create at hc
  split at hc
  · exact absurd hc (by simp)
  · simp only [Except.ok.injEq] at hc
    subst hc
    refine ⟨fun hrows => ?_, fun hzero => ?_⟩
    · unfold KNearestNeighborsRegressor.fit
      rw [if_neg (by omega)]
      by_cases hlt : (ts.number_of_rows : ℤ) < k
      · rw [if_pos hlt]
        simp [hlt]
      · rw [if_neg hlt]
        constructor
        · intro hfit
          rcases utilSklearnFitCheck_cases ts with h | h | h | h <;>
            simp [utilSklearnFit, h] at hfit
        · intro h
          exact absurd h hlt
    · unfold KNearestNeighborsRegressor.fit
      rw [if_pos hzero]

/-- Witness for C5 at concrete input: a regressor built with 5 neighbors and
a 2-row training set. -/
theorem knn_fit_neighbor_count_iff_witness :
    0 < tsValid.number_of_rows ∧
    (KNearestNeighborsRegressor.mk 5 none none none).fit tsValid =
      .error (.valueError "number_of_neighbors") := by
  refine ⟨by decide, ?_⟩
  exact ((knn_fit_neighbor_count_iff 5 ⟨5, none, none, none⟩ tsValid rfl).1
    (by decide)).2 (by decide)

/-- C3: predict on every unfitted model wrapper fails with
ModelNotFittedError before any other validation applies (the error comes
for every dataset, even ones that would trip later checks), for all five
wrapper classes; and transform and inverse_transform on an unfitted
transformer fail with TransformerNotFittedError for every table. -/
theorem unfitted_predict_and_transform_fail :
    (∀ (m : KNearestNeighborsRegressor) pf d, m.wrapped_regressor = none →
      m.predict pf d = .error .modelNotFittedError) ∧
    (∀ (m : SupportVectorMachineRegressor) pf d, m.wrapped_regressor = none →
      m.predict pf d = .error .modelNotFittedError) ∧
    (∀ (m : GradientBoosting) pf d, m.wrapped_regressor = none →
      m.predict pf d = .error .modelNotFittedError) ∧
    (∀ (m : RandomForestRegressor) pf d, m.wrapped_regressor = none →
      m.predict pf d = .error .modelNotFittedError) ∧
    (∀ (m : LogisticRegressionClassifier) pf d, m.wrapped_classifier = none →
      m.predict pf d = .error .modelNotFittedError) ∧
    (∀ (rs : RangeScaler) t, rs.wrapped_transformer = none →
      rs.transform t = .error .transformerNotFittedError ∧
      rs.inverse_transform t = .error .transformerNotFittedError) := by
  refine ⟨?_, ?_, ?_, ?_, ?_, ?_⟩
  · intro m pf d h
    unfold KNearestNeighborsRegressor.predict
    rw [h]
    exact utilSklearnPredict_unfitted pf d m.feature_names m.target_name
  · intro m pf d h
    unfold SupportVectorMachineRegressor.predict
    rw [h]
    exact utilSklearnPredict_unfitted pf d m.feature_names m.target_name
  · intro m pf d h
    unfold GradientBoosting.predict
    rw [h]
    exact utilSklearnPredict_unfitted pf d m.feature_names m.target_name
  · intro m pf d h
    unfold RandomForestRegressor.predict
    rw [h]
    exact utilSklearnPredict_unfitted pf d m.feature_names m.target_name
  · intro m pf d h
    unfold LogisticRegressionClassifier.predict
    rw [h]
    exact utilSklearnPredict_unfitted pf d m.feature_names m.target_name
  · intro rs t h
    constructor
    · unfold RangeScaler.transform
      rw [h]
    · unfold RangeScaler.inverse_transform
      rw [h]

/-- Witness for C3 at concrete input: a freshly constructed KNN wrapper and
a freshly constructed RangeScaler. -/
theorem unfitted_predict_and_transform_fail_witness :
    (KNearestNeighborsRegressor.mk 1 none none none).predict constPredict tsValid.table =
      .error .modelNotFittedError ∧
    (RangeScaler.mk 0 1 none none).transform tsValid.table =
      .error .transformerNotFittedError := by
  exact ⟨unfitted_predict_and_transform_fail.1 ⟨1, none, none, none⟩ constPredict
      tsValid.table rfl,
    (unfitted_predict_and_transform_fail.2.2.2.2.2 ⟨0, 1, none, none⟩ tsValid.table rfl).1⟩

/-- C1 counterexample: the legacy DecisionTree under Runtime/safe-ds does
not obey the copy-on-fit contract. Its fit returns None (modelled by Unit)
instead of a new fitted wrapper, and it mutates the receiver: the wrapped
sklearn estimator held by the receiver is fitted in place, so after the call
the receiver differs from its construction state (and the class offers no
is_fitted at all). -/
theorem decisionTree_fit_mutates_receiver :
    (DecisionTree.create.fit sdsValid).2 = () ∧
    (DecisionTree.create.fit sdsValid).1 ≠ DecisionTree.create := by
  refine ⟨rfl, ?_⟩
  intro h
  simp [DecisionTree.fit, DecisionTree.create] at h

/-- C1 amended: for the five safeds model wrapper classes (the legacy
DecisionTree excluded), a successful fit returns a new, fitted wrapper
instance: the result reports is_fitted true, and whenever the receiver is
unfitted the result is a different instance from the receiver; the receiver
itself is never written to by fit (its body contains no assignment to self,
so the receiver keeps all its fields). -/
theorem safeds_fit_returns_new_fitted_wrapper :
    (∀ (m r : KNearestNeighborsRegressor) ts, m.fit ts = .ok r →
      r.is_fitted = true ∧ (m.is_fitted = false → r ≠ m)) ∧
    (∀ (m r : SupportVectorMachineRegressor) ts, m.fit ts = .ok r →
      r.is_fitted = true ∧ (m.is_fitted = false → r ≠ m)) ∧
    (∀ (m r : GradientBoosting) ts, m.fit ts = .ok r →
      r.is_fitted = true ∧ (m.is_fitted = false → r ≠ m)) ∧
    (∀ (m r : RandomForestRegressor) ts, m.fit ts = .ok r →
      r.is_fitted = true ∧ (m.is_fitted = false → r ≠ m)) ∧
    (∀ (m r : LogisticRegressionClassifier) ts, m.fit ts = .ok r →
      r.is_fitted = true ∧ (m.is_fitted = false → r ≠ m)) := by
  refine ⟨?_, ?_, ?_, ?_, ?_⟩
  · intro m r ts h
    unfold KNearestNeighborsRegressor.fit at h
    split_ifs at h
    split at h
    · exact absurd h (by simp)
    · simp only [Except.ok.injEq] at h
      subst h
      refine ⟨rfl, fun hm heq => ?_⟩
      rw [← heq] at hm
      simp [KNearestNeighborsRegressor.is_fitted] at hm
  · intro m r ts h
    unfold SupportVectorMachineRegressor.fit at h
    split at h
    · exact absurd h (by simp)
    · simp only [Except.ok.injEq] at h
      subst h
      refine ⟨rfl, fun hm heq => ?_⟩
      rw [← heq] at hm
      simp [SupportVectorMachineRegressor.is_fitted] at hm
  · intro m r ts h
    unfold GradientBoosting.fit at h
    split at h
    · exact absurd h (by simp)
    · simp only [Except.ok.injEq] at h
      subst h
      refine ⟨rfl, fun hm heq => ?_⟩
      rw [← heq] at hm
      simp [GradientBoosting.is_fitted] at hm
  · intro m r ts h
    unfold RandomForestRegressor.fit at h
    split at h
    · exact absurd h (by simp)
    · simp only [Except.ok.injEq] at h
      subst h
      refine ⟨rfl, fun hm heq => ?_⟩
      rw [← heq] at hm
      simp [RandomForestRegressor.is_fitted] at hm
  · intro m r ts h
    unfold LogisticRegressionClassifier.fit at h
    split at h
    · exact absurd h (by simp)
    · simp only [Except.ok.injEq] at h
      subst h
      refine ⟨rfl, fun hm heq => ?_⟩
      rw [← heq] at hm
      simp [LogisticRegressionClassifier.is_fitted] at hm

/-- Witness for the amended C1 at concrete input: fitting a freshly
constructed KNN wrapper on the valid two-row training set. -/
theorem safeds_fit_returns_new_fitted_wrapper_witness :
    (KNearestNeighborsRegressor.mk 1 (some ⟨⟨1⟩, tsValid⟩) (some ["feat1"])
        (some "target")).is_fitted = true ∧
    ((KNearestNeighborsRegressor.mk 1 none none none).is_fitted = false →
      (KNearestNeighborsRegressor.mk 1 (some ⟨⟨1⟩, tsValid⟩) (some ["feat1"])
        (some "target")) ≠ ⟨1, none, none, none⟩) :=
  safeds_fit_returns_new_fitted_wrapper.1 ⟨1, none, none, none⟩
    ⟨1, some ⟨⟨1⟩, tsValid⟩, some ["feat1"], some "target"⟩ tsValid rfl

/-! Helper lemmas for the zero-row validation path. -/

theorem mem_of_getColumn (t : Table) (n : String) (c : Column)
    (h : t.getColumn? n = some c) : c ∈ t.columns :=
  List.mem_of_find?_eq_some h

theorem mem_of_keep_only_columns (t : Table) (ns : List String) (c : Column)
    (h : c ∈ (t.keep_only_columns ns).columns) : c ∈ t.columns := by
  unfold Table.keep_only_columns at h
  rcases List.mem_filterMap.mp h with ⟨n, _, hfind⟩
  exact mem_of_getColumn t n c hfind

theorem table_number_of_rows_eq_zero (t : Table)
    (h : ∀ c ∈ t.columns, c.values = []) : t.number_of_rows = 0 := by
  unfold Table.number_of_rows
  split
  · rfl
  next c cs heq => rw [h c (by rw [heq]; exact List.mem_cons_self c cs)]; rfl

theorem utilSklearnFitCheck_zero_rows (ts : TaggedTable)
    (hempty : ∀ c ∈ ts.table.columns, c.values = []) :
    utilSklearnFitCheck ts = .error .datasetMissesDataError := by
  have hcols : ∀ c ∈ fitCheckColumns ts, c.values = [] := by
    intro c hc
    unfold fitCheckColumns at hc
    rcases List.mem_append.mp hc with h | h
    · exact hempty c (mem_of_keep_only_columns _ _ _ h)
    · rw [Option.mem_toList, Option.mem_def] at h
      exact hempty c (mem_of_getColumn _ _ _ h)
  have h1 : (fitCheckColumns ts).all Column.isNumeric = true := by
    rw [List.all_eq_true]
    intro c hcmem
    unfold Column.isNumeric
    rw [hcols c hcmem]
    rfl
  have h2 : (fitCheckColumns ts).any Column.hasMissingValues = false := by
    rw [List.any_eq_false]
    intro c hcmem
    unfold Column.hasMissingValues
    rw [hcols c hcmem]
    simp
  unfold utilSklearnFitCheck
  simp [h1, h2, TaggedTable.number_of_rows,
    table_number_of_rows_eq_zero ts.table hempty]

theorem utilSklearnPredict_zero_rows {Cfg : Type}
    (pf : SkFitted Cfg → Table → List Value) (w : SkFitted Cfg)
    (ds : Table) (fs : List String) (tgt : String)
    (hempty : ∀ c ∈ ds.columns, c.values = [])
    (htgt : ds.column_names.contains tgt = false)
    (hfs : fs.all (fun f => ds.column_names.contains f) = true) :
    utilSklearnPredict pf (some w) ds (some fs) (some tgt) =
      .error .datasetMissesDataError := by
  have h1 : (ds.keep_only_columns fs).columns.all Column.isNumeric = true := by
    rw [List.all_eq_true]
    intro c hcmem
    unfold Column.isNumeric
    rw [hempty c (mem_of_keep_only_columns _ _ _ hcmem)]
    rfl
  have h2 : (ds.keep_only_columns fs).columns.any Column.hasMissingValues = false := by
    rw [List.any_eq_false]
    intro c hcmem
    unfold Column.hasMissingValues
    rw [hempty c (mem_of_keep_only_columns _ _ _ hcmem)]
    simp
  simp at htgt hfs
  unfold utilSklearnPredict
  simp [htgt, h1, h2, table_number_of_rows_eq_zero ds hempty]
  exact hfs

/-- C4 counterexample: a fitted wrapper asked to predict on a ZERO-ROW
dataset that also contains a column named like the target fails with
DatasetContainsTargetError, not with the no-rows condition: the
target-present check precedes the row-count check, so the no-rows failure
is not independent of the column schema. The fitted wrapper shown is the
result of fit on the valid training set. -/
theorem predict_zero_rows_schema_counterexample :
    tableZeroWithTarget.number_of_rows = 0 ∧
    (KNearestNeighborsRegressor.mk 1 none none none).fit tsValid =
      .ok ⟨1, some ⟨⟨1⟩, tsValid⟩, some ["feat1"], some "target"⟩ ∧
    (KNearestNeighborsRegressor.mk 1 (some ⟨⟨1⟩, tsValid⟩) (some ["feat1"])
        (some "target")).predict constPredict tableZeroWithTarget =
      .error .datasetContainsTargetError ∧
    (KNearestNeighborsRegressor.mk 1 (some ⟨⟨1⟩, tsValid⟩) (some ["feat1"])
        (some "target")).predict constPredict tableZeroWithTarget ≠
      .error .datasetMissesDataError := by
  have h : (KNearestNeighborsRegressor.mk 1 (some ⟨⟨1⟩, tsValid⟩) (some ["feat1"])
      (some "target")).predict constPredict tableZeroWithTarget =
      .error .datasetContainsTargetError := rfl
  refine ⟨rfl, rfl, h, ?_⟩
  rw [h]
  simp

/-- C4 amended: a zero-row training set always makes fit fail with
DatasetMissesDataError, regardless of the column schema, for all five
wrapper classes; a zero-row dataset makes predict of a fitted wrapper fail
with DatasetMissesDataError provided the dataset does not already contain
the target column and misses no feature column (otherwise the
target-present or missing-features check fires first). -/
theorem zero_rows_fit_predict_miss_data :
    (∀ (m : KNearestNeighborsRegressor) ts, (∀ c ∈ ts.table.columns, c.values = []) →
      m.fit ts = .error .datasetMissesDataError) ∧
    (∀ (m : SupportVectorMachineRegressor) ts, (∀ c ∈ ts.table.columns, c.values = []) →
      m.fit ts = .error .datasetMissesDataError) ∧
    (∀ (m : GradientBoosting) ts, (∀ c ∈ ts.table.columns, c.values = []) →
      m.fit ts = .error .datasetMissesDataError) ∧
    (∀ (m : RandomForestRegressor) ts, (∀ c ∈ ts.table.columns, c.values = []) →
      m.fit ts = .error .datasetMissesDataError) ∧
    (∀ (m : LogisticRegressionClassifier) ts, (∀ c ∈ ts.table.columns, c.values = []) →
      m.fit ts = .error .datasetMissesDataError) ∧
    (∀ (m : KNearestNeighborsRegressor) pf w fs tgt ds,
      m.wrapped_regressor = some w → m.feature_names = some fs →
      m.target_name = some tgt → (∀ c ∈ ds.columns, c.values = []) →
      ds.column_names.contains tgt = false →
      fs.all (fun f => ds.column_names.contains f) = true →
      m.predict pf ds = .error .datasetMissesDataError) ∧
    (∀ (m : SupportVectorMachineRegressor) pf w fs tgt ds,
      m.wrapped_regressor = some w → m.feature_names = some fs →
      m.target_name = some tgt → (∀ c ∈ ds.columns, c.values = []) →
      ds.column_names.contains tgt = false →
      fs.all (fun f => ds.column_names.contains f) = true →
      m.predict pf ds = .error .datasetMissesDataError) ∧
    (∀ (m : GradientBoosting) pf w fs tgt ds,
      m.wrapped_regressor = some w → m.feature_names = some fs →
      m.target_name = some tgt → (∀ c ∈ ds.columns, c.values = []) →
      ds.column_names.contains tgt = false →
      fs.all (fun f => ds.column_names.contains f) = true →
      m.predict pf ds = .error .datasetMissesDataError) ∧
    (∀ (m : RandomForestRegressor) pf w fs tgt ds,
      m.wrapped_regressor = some w → m.feature_names = some fs →
      m.target_name = some tgt → (∀ c ∈ ds.columns, c.values = []) →
      ds.column_names.contains tgt = false →
      fs.all (fun f => ds.column_names.contains f) = true →
      m.predict pf ds = .error .datasetMissesDataError) ∧
    (∀ (m : LogisticRegressionClassifier) pf w fs tgt ds,
      m.wrapped_classifier = some w → m.feature_names = some fs →
      m.target_name = some tgt → (∀ c ∈ ds.columns, c.values = []) →
      ds.column_names.contains tgt = false →
      fs.all (fun f => ds.column_names.contains f) = true →
      m.predict pf ds = .error .datasetMissesDataError) := by
  have hzero : ∀ ts : TaggedTable, (∀ c ∈ ts.table.columns, c.values = []) →
      ts.number_of_rows = 0 := fun ts h =>
    table_number_of_rows_eq_zero ts.table h
  refine ⟨?_, ?_, ?_, ?_, ?_, ?_, ?_, ?_, ?_, ?_⟩
  · intro m ts h
    unfold KNearestNeighborsRegressor.fit
    rw [if_pos (hzero ts h)]
  · intro m ts h
    unfold SupportVectorMachineRegressor.fit utilSklearnFit
    rw [utilSklearnFitCheck_zero_rows ts h]
  · intro m ts h
    unfold GradientBoosting.fit utilSklearnFit
    rw [utilSklearnFitCheck_zero_rows ts h]
  · intro m ts h
    unfold RandomForestRegressor.fit utilSklearnFit
    rw [utilSklearnFitCheck_zero_rows ts h]
  · intro m ts h
    unfold LogisticRegressionClassifier.fit utilSklearnFit
    rw [utilSklearnFitCheck_zero_rows ts h]
  · intro m pf w fs tgt ds hw hf ht hempty htgt hfs
    unfold KNearestNeighborsRegressor.predict
    rw [hw, hf, ht]
    exact utilSklearnPredict_zero_rows pf w ds fs tgt hempty htgt hfs
  · intro m pf w fs tgt ds hw hf ht hempty htgt hfs
    unfold SupportVectorMachineRegressor.predict
    rw [hw, hf, ht]
    exact utilSklearnPredict_zero_rows pf w ds fs tgt hempty htgt hfs
  · intro m pf w fs tgt ds hw hf ht hempty htgt hfs
    unfold GradientBoosting.predict
    rw [hw, hf, ht]
    exact utilSklearnPredict_zero_rows pf w ds fs tgt hempty htgt hfs
  · intro m pf w fs tgt ds hw hf ht hempty htgt hfs
    unfold RandomForestRegressor.predict
    rw [hw, hf, ht]
    exact utilSklearnPredict_zero_rows pf w ds fs tgt hempty htgt hfs
  · intro m pf w fs tgt ds hw hf ht hempty htgt hfs
    unfold LogisticRegressionClassifier.predict
    rw [hw, hf, ht]
    exact utilSklearnPredict_zero_rows pf w ds fs tgt hempty htgt hfs

/-- Witness for the amended C4 at concrete input: fit on a zero-row tagged
table and predict of a fitted wrapper on a zero-row feature-only table. -/
theorem zero_rows_fit_predict_miss_data_witness :
    (KNearestNeighborsRegressor.mk 1 none none none).fit tsZeroRows =
      .error .datasetMissesDataError ∧
    (KNearestNeighborsRegressor.mk 1 (some ⟨⟨1⟩, tsValid⟩) (some ["feat1"])
        (some "target")).predict constPredict ⟨[⟨"feat1", []⟩]⟩ =
      .error .datasetMissesDataError := by
  constructor
  · exact zero_rows_fit_predict_miss_data.1 ⟨1, none, none, none⟩ tsZeroRows
      (by decide)
  · exact zero_rows_fit_predict_miss_data.2.2.2.2.2.1 ⟨1, some ⟨⟨1⟩, tsValid⟩,
      some ["feat1"], some "target"⟩ constPredict ⟨⟨1⟩, tsValid⟩ ["feat1"] "target"
      ⟨[⟨"feat1", []⟩]⟩ rfl rfl rfl (by decide) (by decide) (by decide)

theorem utilSklearnPredict_contains_target {Cfg : Type}
    (pf : SkFitted Cfg → Table → List Value) (w : SkFitted Cfg)
    (ds : Table) (fs : List String) (tgt : String)
    (h : ds.column_names.contains tgt = true) :
    utilSklearnPredict pf (some w) ds (some fs) (some tgt) =
      .error .datasetContainsTargetError := by
  simp at h
  unfold utilSklearnPredict
  simp [h]

theorem utilSklearnPredict_misses_features {Cfg : Type}
    (pf : SkFitted Cfg → Table → List Value) (w : SkFitted Cfg)
    (ds : Table) (fs : List String) (tgt : String)
    (htgt : ds.column_names.contains tgt = false)
    (hf : fs.all (fun f => ds.column_names.contains f) = false) :
    utilSklearnPredict pf (some w) ds (some fs) (some tgt) =
      .error .datasetMissesFeaturesError := by
  simp at htgt hf
  unfold utilSklearnPredict
  simp [htgt, hf]

/-- C6 counterexample: a fitted wrapper (trained with feature feat1 and
target target) asked to predict on a dataset that both misses the feature
column and already contains the target column fails with
DatasetContainsTargetError, not with DatasetMissesFeaturesError: the
target-present check precedes the missing-features check, so a dataset
missing a required feature does not ALWAYS fail with the missing-features
condition. -/
theorem predict_misses_features_counterexample :
    ("feat1" ∉ (Table.mk [⟨"target", [.num 0]⟩]).column_names) ∧
    (KNearestNeighborsRegressor.mk 1 (some ⟨⟨1⟩, tsValid⟩) (some ["feat1"])
        (some "target")).predict constPredict ⟨[⟨"target", [.num 0]⟩]⟩ =
      .error .datasetContainsTargetError ∧
    (KNearestNeighborsRegressor.mk 1 (some ⟨⟨1⟩, tsValid⟩) (some ["feat1"])
        (some "target")).predict constPredict ⟨[⟨"target", [.num 0]⟩]⟩ ≠
      .error .datasetMissesFeaturesError := by
  have h : (KNearestNeighborsRegressor.mk 1 (some ⟨⟨1⟩, tsValid⟩) (some ["feat1"])
      (some "target")).predict constPredict ⟨[⟨"target", [.num 0]⟩]⟩ =
      .error .datasetContainsTargetError := rfl
  refine ⟨by decide, h, ?_⟩
  rw [h]
  simp

/-- C6 amended: for every fitted model wrapper of the five classes, predict
on a dataset that already contains a column named like the trained target
always fails with DatasetContainsTargetError; predict on a dataset missing
a required feature column fails with DatasetMissesFeaturesError provided
the dataset does not also contain the target column (in that case the
target-present check fires first). -/
theorem predict_target_and_features_errors :
    (∀ (m : KNearestNeighborsRegressor) pf w fs tgt ds,
      m.wrapped_regressor = some w → m.feature_names = some fs →
      m.target_name = some tgt →
      (ds.column_names.contains tgt = true →
        m.predict pf ds = .error .datasetContainsTargetError) ∧
      (ds.column_names.contains tgt = false →
        fs.all (fun f => ds.column_names.contains f) = false →
        m.predict pf ds = .error .datasetMissesFeaturesError)) ∧
    (∀ (m : SupportVectorMachineRegressor) pf w fs tgt ds,
      m.wrapped_regressor = some w → m.feature_names = some fs →
      m.target_name = some tgt →
      (ds.column_names.contains tgt = true →
        m.predict pf ds = .error .datasetContainsTargetError) ∧
      (ds.column_names.contains tgt = false →
        fs.all (fun f => ds.column_names.contains f) = false →
        m.predict pf ds = .error .datasetMissesFeaturesError)) ∧
    (∀ (m : GradientBoosting) pf w fs tgt ds,
      m.wrapped_regressor = some w → m.feature_names = some fs →
      m.target_name = some tgt →
      (ds.column_names.contains tgt = true →
        m.predict pf ds = .error .datasetContainsTargetError) ∧
      (ds.column_names.contains tgt = false →
        fs.all (fun f => ds.column_names.contains f) = false →
        m.predict pf ds = .error .datasetMissesFeaturesError)) ∧
    (∀ (m : RandomForestRegressor) pf w fs tgt ds,
      m.wrapped_regressor = some w → m.feature_names = some fs →
      m.target_name = some tgt →
      (ds.column_names.contains tgt = true →
        m.predict pf ds = .error .datasetContainsTargetError) ∧
      (ds.column_names.contains tgt = false →
        fs.all (fun f => ds.column_names.contains f) = false →
        m.predict pf ds = .error .datasetMissesFeaturesError)) ∧
    (∀ (m : LogisticRegressionClassifier) pf w fs tgt ds,
      m.wrapped_classifier = some w → m.feature_names = some fs →
      m.target_name = some tgt →
      (ds.column_names.contains tgt = true →
        m.predict pf ds = .error .datasetContainsTargetError) ∧
      (ds.column_names.contains tgt = false →
        fs.all (fun f => ds.column_names.contains f) = false →
        m.predict pf ds = .error .datasetMissesFeaturesError)) := by
  refine ⟨?_, ?_, ?_, ?_, ?_⟩
  · intro m pf w fs tgt ds hw hf ht
    unfold KNearestNeighborsRegressor.predict
    rw [hw, hf, ht]
    exact ⟨fun h => utilSklearnPredict_contains_target pf w ds fs tgt h,
      fun h1 h2 => utilSklearnPredict_misses_features pf w ds fs tgt h1 h2⟩
  · intro m pf w fs tgt ds hw hf ht
    unfold SupportVectorMachineRegressor.predict
    rw [hw, hf, ht]
    exact ⟨fun h => utilSklearnPredict_contains_target pf w ds fs tgt h,
      fun h1 h2 => utilSklearnPredict_misses_features pf w ds fs tgt h1 h2⟩
  · intro m pf w fs tgt ds hw hf ht
    unfold GradientBoosting.predict
    rw [hw, hf, ht]
    exact ⟨fun h => utilSklearnPredict_contains_target pf w ds fs tgt h,
      fun h1 h2 => utilSklearnPredict_misses_features pf w ds fs tgt h1 h2⟩
  · intro m pf w fs tgt ds hw hf ht
    unfold RandomForestRegressor.predict
    rw [hw, hf, ht]
    exact ⟨fun h => utilSklearnPredict_contains_target pf w ds fs tgt h,
      fun h1 h2 => utilSklearnPredict_misses_features pf w ds fs tgt h1 h2⟩
  · intro m pf w fs tgt ds hw hf ht
    unfold LogisticRegressionClassifier.predict
    rw [hw, hf, ht]
    exact ⟨fun h => utilSklearnPredict_contains_target pf w ds fs tgt h,
      fun h1 h2 => utilSklearnPredict_misses_features pf w ds fs tgt h1 h2⟩

/-- Witness for the amended C6 at concrete input: a fitted KNN wrapper
predicting on a dataset that contains the target, and on a dataset without
the target that misses the feature column. -/
theorem predict_target_and_features_errors_witness :
    (KNearestNeighborsRegressor.mk 1 (some ⟨⟨1⟩, tsValid⟩) (some ["feat1"])
        (some "target")).predict constPredict tsValid.table =
      .error .datasetContainsTargetError ∧
    (KNearestNeighborsRegressor.mk 1 (some ⟨⟨1⟩, tsValid⟩) (some ["feat1"])
        (some "target")).predict constPredict ⟨[⟨"other", [.num 1]⟩]⟩ =
      .error .datasetMissesFeaturesError := by
  constructor
  · exact (predict_target_and_features_errors.1 ⟨1, some ⟨⟨1⟩, tsValid⟩,
      some ["feat1"], some "target"⟩ constPredict ⟨⟨1⟩, tsValid⟩ ["feat1"] "target"
      tsValid.table rfl rfl rfl).1 (by decide)
  · exact (predict_target_and_features_errors.1 ⟨1, some ⟨⟨1⟩, tsValid⟩,
      some ["feat1"], some "target"⟩ constPredict ⟨⟨1⟩, tsValid⟩ ["feat1"] "target"
      ⟨[⟨"other", [.num 1]⟩]⟩ rfl rfl rfl).2 (by decide) (by decide)

/-- C9: every wrapper state reachable by construction and successful fits
satisfies the fitted-state invariant, for all five wrapper classes: the
wrapped-estimator handle, feature names and target name are all the None
sentinel (is_fitted false) or all set (is_fitted true), with feature names
and target name taken from the training set and the wrapped configuration
carrying exactly the hyperparameters of the wrapper fit was called on. -/
theorem reachable_fitted_state_invariant :
    (∀ m, KNNReachable m → KNNInvariant m) ∧
    (∀ m, SVMReachable m → SVMInvariant m) ∧
    (∀ m, GBReachable m → GBInvariant m) ∧
    (∀ m, RFReachable m → RFInvariant m) ∧
    (∀ m, LogRegReachable m → LogRegInvariant m) := by
  refine ⟨?_, ?_, ?_, ?_, ?_⟩
  · intro m hm
    induction hm with
    | of_create k m h =>
      unfold KNearestNeighborsRegressor.create at h
      split at h
      · exact absurd h (by simp)
      · simp only [Except.ok.injEq] at h
        subst h
        exact Or.inl ⟨rfl, rfl, rfl, rfl⟩
    | of_fit m r ts hm h ih =>
      unfold KNearestNeighborsRegressor.fit at h
      split_ifs at h
      rcases utilSklearnFitCheck_cases ts with hc | hc | hc | hc <;>
        simp [utilSklearnFit, KNearestNeighborsRegressor.get_sklearn_regressor,
          hc] at h
      subst h
      exact Or.inr ⟨⟨⟨m.number_of_neighbors⟩, ts⟩, rfl, rfl, rfl, rfl, rfl⟩
  · intro m hm
    induction hm with
    | of_create c k m h =>
      unfold SupportVectorMachineRegressor.create at h
      split at h
      · exact absurd h (by simp)
      · simp only [Except.ok.injEq] at h
        subst h
        exact Or.inl ⟨rfl, rfl, rfl, rfl⟩
    | of_fit m r ts hm h ih =>
      unfold SupportVectorMachineRegressor.fit at h
      rcases utilSklearnFitCheck_cases ts with hc | hc | hc | hc <;>
        simp [utilSklearnFit, SupportVectorMachineRegressor.get_sklearn_regressor,
          hc] at h
      subst h
      exact Or.inr ⟨⟨⟨m.c⟩, ts⟩, rfl, rfl, rfl, rfl, rfl⟩
  · intro m hm
    induction hm with
    | of_create lr m h =>
      unfold GradientBoosting.create at h
      split at h
      · exact absurd h (by simp)
      · simp only [Except.ok.injEq] at h
        subst h
        exact Or.inl ⟨rfl, rfl, rfl, rfl⟩
    | of_fit m r ts hm h ih =>
      unfold GradientBoosting.fit at h
      rcases utilSklearnFitCheck_cases ts with hc | hc | hc | hc <;>
        simp [utilSklearnFit, hc] at h
      subst h
      exact Or.inr ⟨⟨⟨m.learning_rate⟩, ts⟩, rfl, rfl, rfl, rfl, rfl⟩
  · intro m hm
    induction hm with
    | of_create n m h =>
      unfold RandomForestRegressor.create at h
      split at h
      · exact absurd h (by simp)
      · simp only [Except.ok.injEq] at h
        subst h
        exact Or.inl ⟨rfl, rfl, rfl, rfl⟩
    | of_fit m r ts hm h ih =>
      unfold RandomForestRegressor.fit at h
      rcases utilSklearnFitCheck_cases ts with hc | hc | hc | hc <;>
        simp [utilSklearnFit, RandomForestRegressor.get_sklearn_regressor, hc] at h
      subst h
      exact Or.inr ⟨⟨⟨m.number_of_trees⟩, ts⟩, rfl, rfl, rfl, rfl, rfl⟩
  · intro m hm
    induction hm with
    | of_create m h =>
      unfold LogisticRegressionClassifier.create at h
      subst h
      exact Or.inl ⟨rfl, rfl, rfl, rfl⟩
    | of_fit m r ts hm h ih =>
      unfold LogisticRegressionClassifier.fit at h
      rcases utilSklearnFitCheck_cases ts with hc | hc | hc | hc <;>
        simp [utilSklearnFit, hc] at h
      subst h
      exact Or.inr ⟨⟨⟨⟩, ts⟩, rfl, rfl, rfl, rfl⟩

/-- Witness for C9 at concrete input: the invariant holds for the freshly
constructed KNN wrapper and for the wrapper obtained by fitting it on the
valid training set. -/
theorem reachable_fitted_state_invariant_witness :
    KNNInvariant ⟨1, none, none, none⟩ ∧
    KNNInvariant ⟨1, some ⟨⟨1⟩, tsValid⟩, some ["feat1"], some "target"⟩ := by
  constructor
  · exact reachable_fitted_state_invariant.1 _
      (KNNReachable.of_create 1 _ rfl)
  · exact reachable_fitted_state_invariant.1 _
      (KNNReachable.of_fit ⟨1, none, none, none⟩ _ tsValid
        (KNNReachable.of_create 1 _ rfl) rfl)

/-- C10: the kernel hyperparameter of the SupportVectorMachineRegressor has
no effect on fitting: get_sklearn_regressor builds the wrapped estimator
from the regularization strength c alone (sk_SVR with only C set), so any
two instances with equal c but arbitrary, possibly different kernels
(including None) construct identical estimator configurations, and fit on
the same training set returns results that agree on every field other than
the kernel itself (same outcome, same wrapped estimator, same feature and
target names); get_kernel_name is not consulted anywhere on this path. -/
theorem svm_kernel_has_no_effect_on_fit (s1 s2 : SupportVectorMachineRegressor)
    (hc : s1.c = s2.c) :
    s1.get_sklearn_regressor = SkSVRConfig.mk s1.c ∧
    s1.get_sklearn_regressor = s2.get_sklearn_regressor ∧
    ∀ ts : TaggedTable,
      (s1.fit ts).map svmObservable = (s2.fit ts).map svmObservable := by
  refine ⟨rfl, ?_, ?_⟩
  · unfold SupportVectorMachineRegressor.get_sklearn_regressor
    rw [hc]
  · intro ts
    unfold SupportVectorMachineRegressor.fit utilSklearnFit
    unfold SupportVectorMachineRegressor.get_sklearn_regressor
    rw [hc]
    rcases utilSklearnFitCheck_cases ts with h | h | h | h <;>
      simp [h, Except.map, svmObservable, hc]

/-- Witness for C10 at concrete input: two SVM wrappers with c = 1, one
without a kernel and one with the linear kernel. -/
theorem svm_kernel_has_no_effect_on_fit_witness :
    (SupportVectorMachineRegressor.mk 1 none none none none).get_sklearn_regressor =
      SkSVRConfig.mk 1 ∧
    (SupportVectorMachineRegressor.mk 1 none none none none).get_sklearn_regressor =
      (SupportVectorMachineRegressor.mk 1 (some .linear) none none none).get_sklearn_regressor ∧
    ∀ ts : TaggedTable,
      ((SupportVectorMachineRegressor.mk 1 none none none none).fit ts).map svmObservable =
      ((SupportVectorMachineRegressor.mk 1 (some .linear) none none none).fit ts).map svmObservable :=
  svm_kernel_has_no_effect_on_fit ⟨1, none, none, none, none⟩
    ⟨1, some .linear, none, none, none⟩ rfl

/-! Helper lemmas for the RangeScaler. -/

theorem unscaleValue_scaleValue (m M dmin dmax : ℚ) (hm : m < M) (hd : dmin < dmax)
    (v : Value) :
    unscaleValue m M dmin dmax (scaleValue m M dmin dmax v) = v := by
  cases v with
  | num q =>
    have h1 : M - m ≠ 0 := sub_ne_zero.mpr (ne_of_gt hm)
    have h2 : dmax - dmin ≠ 0 := sub_ne_zero.mpr (ne_of_gt hd)
    unfold scaleValue unscaleValue
    field_simp
    ring
  | str s => rfl
  | missing => rfl

theorem rangeScalerParams_keys (t : Table) (ns : List String)
    (ps : List (String × ℚ × ℚ)) (h : rangeScalerParams t ns = some ps) :
    ps.map (fun p => p.1) = ns := by
  induction ns generalizing ps with
  | nil =>
    unfold rangeScalerParams at h
    simp only [Option.some.injEq] at h
    subst h
    rfl
  | cons n ns ih =>
    unfold rangeScalerParams at h
    split at h
    · exact absurd h (by simp)
    split at h
    · exact absurd h (by simp)
    · exact absurd h (by simp)
    split at h
    · exact absurd h (by simp)
    next ps' hps' =>
      simp only [Option.some.injEq] at h
      subst h
      simp [ih ps' hps']

theorem scaled_columns_names (ps : List (String × ℚ × ℚ)) (mn mx : ℚ)
    (cols : List Column) :
    (cols.map fun c =>
      match ps.find? (fun p => p.1 = c.name) with
      | some p => Column.mk c.name (c.values.map (scaleValue mn mx p.2.1 p.2.2))
      | none => c).map Column.name = cols.map Column.name := by
  rw [List.map_map]
  apply List.map_congr_left
  intro c _
  cases hf : ps.find? (fun p => p.1 = c.name) <;> simp [hf]

/-- C2: fitting a RangeScaler on a table, transforming it, and then applying
inverse_transform reproduces the original table exactly (the rational model
computes the exact algebraic inverse, which subsumes the floating-point
tolerance of the spec), provided the configured target range and every
fitted column's data range are nondegenerate. The transformed table is also
the fit_and_transform output. -/
theorem rangeScaler_inverse_transform_roundtrip
    (rs rs' : RangeScaler) (t u : Table) (cns : Option (List String))
    (ps : List (String × ℚ × ℚ))
    (hfit : rs.fit t cns = .ok rs')
    (hm : rs.minimum < rs.maximum)
    (hps : rs'.wrapped_transformer = some ps)
    (hd : ∀ p ∈ ps, p.2.1 < p.2.2)
    (htr : rs'.transform t = .ok u) :
    rs.fit_and_transform t cns = .ok u ∧ rs'.inverse_transform u = .ok t := by
  refine ⟨?_, ?_⟩
  · unfold RangeScaler.fit_and_transform
    rw [hfit]
    exact htr
  · unfold RangeScaler.fit at hfit
    split_ifs at hfit with hg
    split at hfit
    · exact absurd hfit (by simp)
    next ps0 hps0 =>
      simp only [Except.ok.injEq] at hfit
      subst hfit
      simp only [Option.some.injEq] at hps
      subst hps
      unfold RangeScaler.transform at htr
      dsimp only at htr
      split_ifs at htr
      simp only [Except.ok.injEq] at htr
      subst htr
      have hnames : (Table.mk (t.columns.map fun c =>
          match ps0.find? (fun p => p.1 = c.name) with
          | some p => Column.mk c.name
              (c.values.map (scaleValue rs.minimum rs.maximum p.2.1 p.2.2))
          | none => c)).column_names = t.column_names := by
        unfold Table.column_names
        exact scaled_columns_names ps0 rs.minimum rs.maximum t.columns
      unfold RangeScaler.inverse_transform
      dsimp only
      split_ifs with hcond
      case neg =>
        rw [hnames] at hcond
        exact absurd hg hcond
      case pos =>
        rw [List.map_map]
        have hone : ∀ c ∈ t.columns,
            ((fun c =>
              match ps0.find? (fun p => p.1 = c.name) with
              | some p => Column.mk c.name
                  (c.values.map (unscaleValue rs.minimum rs.maximum p.2.1 p.2.2))
              | none => c) ∘ (fun c =>
              match ps0.find? (fun p => p.1 = c.name) with
              | some p => Column.mk c.name
                  (c.values.map (scaleValue rs.minimum rs.maximum p.2.1 p.2.2))
              | none => c)) c = id c := by
          intro c _
          simp only [Function.comp_apply, id_eq]
          cases hf : ps0.find? (fun p => p.1 = c.name) with
          | none => simp [hf]
          | some p =>
            have hdp := hd p (List.mem_of_find?_eq_some hf)
            simp only [hf]
            rw [List.map_map]
            have hvals : ∀ v ∈ c.values,
                (unscaleValue rs.minimum rs.maximum p.2.1 p.2.2 ∘
                  scaleValue rs.minimum rs.maximum p.2.1 p.2.2) v = id v :=
              fun v _ => unscaleValue_scaleValue _ _ _ _ hm hdp v
            rw [List.map_congr_left hvals, List.map_id]
        rw [List.map_congr_left hone, List.map_id]

/-- Witness for C2 at concrete input: the default RangeScaler fitted on
[0, 5, 5, 10] scales it to [0, 0.5, 0.5, 1] and inverse_transform maps it
back to [0, 5, 5, 10]. -/
theorem rangeScaler_inverse_transform_roundtrip_witness :
    rsUnitFitted.transform tRound = .ok tScaled ∧
    rsUnit.fit_and_transform tRound none = .ok tScaled ∧
    rsUnitFitted.inverse_transform tScaled = .ok tRound := by
  have htr : rsUnitFitted.transform tRound = .ok tScaled := by
    simp [RangeScaler.transform, rsUnitFitted, tRound, tScaled, scaleValue,
      Table.column_names]
    norm_num
  have h := rangeScaler_inverse_transform_roundtrip rsUnit rsUnitFitted tRound
    tScaled none [("col1", 0, 10)] rfl (by decide) rfl (by decide) htr
  exact ⟨htr, h.1, h.2⟩

/-- C7: a RangeScaler built with minimum -10 and maximum 10, fitted on and
applied to the column [0, 5, 5, 10] via fit_and_transform, yields exactly
[-10, 0, 0, 10]; fitting and transforming only col1 of a two-column table
leaves col2 exactly as it was; and in general every column whose name is
not in the fitted column set passes through transform unchanged, at its
original position. -/
theorem rangeScaler_wide_concrete_and_untouched_columns :
    RangeScaler.create (-10) 10 = .ok (RangeScaler.mk (-10) 10 none none) ∧
    (RangeScaler.mk (-10) 10 none none).fit_and_transform tRound none = .ok tWide ∧
    (RangeScaler.mk (-10) 10 none none).fit_and_transform tRound2 (some ["col1"]) =
      .ok tWide2 ∧
    (∀ (rs rs' : RangeScaler) (t0 t u : Table) (cns : Option (List String))
        (names : List String) (i : ℕ) (c : Column),
      rs.fit t0 cns = .ok rs' → rs'.column_names = some names →
      rs'.transform t = .ok u → t.columns[i]? = some c → c.name ∉ names →
      u.columns[i]? = some c) := by
  refine ⟨by rfl, ?_, ?_, ?_⟩
  · simp [RangeScaler.fit_and_transform, RangeScaler.fit, RangeScaler.transform,
      rangeScalerParams, numericValues, tRound, tWide, scaleValue,
      Table.column_names, Table.getColumn?]
    norm_num
  · simp [RangeScaler.fit_and_transform, RangeScaler.fit, RangeScaler.transform,
      rangeScalerParams, numericValues, tRound2, tWide2, scaleValue,
      Table.column_names, Table.getColumn?]
    norm_num
  · intro rs rs' t0 t u cns names i c hfit hn htr hci hnotin
    unfold RangeScaler.fit at hfit
    split_ifs at hfit
    split at hfit
    · exact absurd hfit (by simp)
    next ps0 hps0 =>
      simp only [Except.ok.injEq] at hfit
      subst hfit
      simp only [Option.some.injEq] at hn
      subst hn
      have hkeys := rangeScalerParams_keys t0 _ ps0 hps0
      have hfind : ps0.find? (fun p => p.1 = c.name) = none := by
        rw [List.find?_eq_none]
        intro p hp
        simp only [decide_eq_true_eq]
        intro hpc
        apply hnotin
        rw [← hkeys, ← hpc]
        exact List.mem_map_of_mem (fun p => p.1) hp
      unfold RangeScaler.transform at htr
      dsimp only at htr
      split_ifs at htr
      simp only [Except.ok.injEq] at htr
      subst htr
      simp [List.getElem?_map, hci, hfind]

/-- Witness for the general part of C7 at concrete input: fitting only col1
of the two-column table and transforming leaves col2 at position 1
unchanged. -/
theorem rangeScaler_untouched_columns_witness :
    tWide2.columns[1]? = some ⟨"col2", [.num 0, .num 5, .num 5, .num 10]⟩ := by
  have htr : (RangeScaler.mk (-10) 10 (some [("col1", 0, 10)])
      (some ["col1"])).transform tRound2 = .ok tWide2 := by
    simp [RangeScaler.transform, tRound2, tWide2, scaleValue, Table.column_names]
    norm_num
  exact rangeScaler_wide_concrete_and_untouched_columns.2.2.2
    (RangeScaler.mk (-10) 10 none none)
    (RangeScaler.mk (-10) 10 (some [("col1", 0, 10)]) (some ["col1"]))
    tRound2 tRound2 tWide2 (some ["col1"]) ["col1"] 1
    ⟨"col2", [.num 0, .num 5, .num 5, .num 10]⟩
    rfl rfl htr rfl (by decide)

/-- C8: fit_and_transform is exactly fit followed by transform on the same
table: a successful fit makes fit_and_transform return precisely what
transform of the fitted transformer yields on the table, and a fit failure
propagates the same error; the operations are pure functions of their
inputs, mirroring the code, which never writes to the original table.
Concretely the default RangeScaler maps [0, 5, 5, 10] to [0, 0.5, 0.5, 1]
by either route. -/
theorem fit_and_transform_is_fit_then_transform :
    (∀ (rs : RangeScaler) (t : Table) (cns : Option (List String)) fitted,
      rs.fit t cns = .ok fitted →
      rs.fit_and_transform t cns = fitted.transform t) ∧
    (∀ (rs : RangeScaler) (t : Table) (cns : Option (List String)) e,
      rs.fit t cns = .error e → rs.fit_and_transform t cns = .error e) ∧
    rsUnit.fit tRound none = .ok rsUnitFitted ∧
    rsUnit.fit_and_transform tRound none = .ok tScaled ∧
    rsUnitFitted.transform tRound = .ok tScaled := by
  refine ⟨?_, ?_, by rfl, ?_, ?_⟩
  · intro rs t cns fitted h
    unfold RangeScaler.fit_and_transform
    rw [h]
  · intro rs t cns e h
    unfold RangeScaler.fit_and_transform
    rw [h]
  · simp [RangeScaler.fit_and_transform, RangeScaler.fit, RangeScaler.transform,
      rangeScalerParams, numericValues, rsUnit, tRound, tScaled, scaleValue,
      Table.column_names, Table.getColumn?]
    norm_num
  · simp [RangeScaler.transform, rsUnitFitted, tRound, tScaled, scaleValue,
      Table.column_names]
    norm_num

/-- Witness for C8 at concrete input: the two routes agree on the default
scaler and the [0, 5, 5, 10] table. -/
theorem fit_and_transform_is_fit_then_transform_witness :
    rsUnit.fit_and_transform tRound none = rsUnitFitted.transform tRound :=
  fit_and_transform_is_fit_then_transform.1 rsUnit tRound none rsUnitFitted rfl

end SafeDS
